import Mathlib

/-!
Shallow embedding of the ORB_SLAM tracking front end
(`src/orb_slam/src/threads/Tracking.cc`) and the shutdown trajectory export
(`src/orb_slam/src/main.cc`).

External collaborators (ORB matcher, pose optimizer, two-view initializer,
bag-of-words vocabulary) are black boxes per the specification; their results
enter the embedding as oracle records.  Machine floats are modelled by `ℚ`.
-/

/-- The Tracking state machine states (`Tracking.h` enum, used throughout
`Tracking.cc`). -/
inductive TrackState where
  | NO_IMAGES_YET
  | NOT_INITIALIZED
  | INITIALIZING
  | WORKING
deriving DecidableEq, Repr

/-- A record of one matcher search call performed by the tracker, with the
parameters the source passes (search radius in pixels, minimum octave). -/
inductive SearchCall where
  | windowSearch (radius : Nat) (minOctave : Nat)
  | projectionPrev (radius : Nat)
deriving DecidableEq, Repr

abbrev Mat3 := Matrix (Fin 3) (Fin 3) ℚ
abbrev Vec3 := Matrix (Fin 3) (Fin 1) ℚ
/-- A 4×4 homogeneous rigid transform, indexed in block form (3+1)×(3+1). -/
abbrev Mat4 := Matrix (Fin 3 ⊕ Fin 1) (Fin 3 ⊕ Fin 1) ℚ

/-- Assemble a homogeneous transform from rotation and translation blocks,
as `cv::Mat::eye(4,4)` with `copyTo` on the two upper blocks does. -/
def homog (R : Mat3) (t : Vec3) : Mat4 := Matrix.fromBlocks R t 0 1

/-- Top-left 3×3 block (`T.rowRange(0,3).colRange(0,3)`). -/
def rotBlock (T : Mat4) : Mat3 := T.toBlocks₁₁

/-- Top-right 3×1 block (`T.rowRange(0,3).col(3)`). -/
def transBlock (T : Mat4) : Vec3 := T.toBlocks₁₂

/-- `Tracking.cc:326-330`: `LastTwc` built from `mLastFrame.mTcw` by
transposing the rotation block and negating the rotated translation. -/
def lastTwcOf (T : Mat4) : Mat4 :=
  homog (rotBlock T).transpose (-((rotBlock T).transpose * transBlock T))

/-- The data of a `Map` that the tracking claims consult: its keyframe count
(`KeyFramesInMap()`) and its logical-deletion flag (`setErased`). -/
structure MapModel where
  kfCount : Nat
  erased : Bool
deriving DecidableEq, Repr

/-- Member state of `Tracking` relevant to the claims. `localMapIsNull`
mirrors the `localMap` pointer (`NULL` or not); `currentMap` mirrors
`mapDB->getCurrent()`; `lastPose` mirrors `mLastFrame.mTcw` (`none` = empty
`cv::Mat`). -/
structure TrackingVars where
  mState : TrackState
  mbMotionModel : Bool
  mVelocity : Option Mat4
  mnLastRelocFrameId : Nat
  mnLastKeyFrameId : Nat
  mbForceRelocalisation : Bool
  localMapIsNull : Bool
  currentMap : Option MapModel
  lastPose : Option Mat4
  initialFrameId : Option Nat

/-- Oracle results of the external matcher/optimizer calls made by
`Tracking::TrackPreviousFrame` (`Tracking.cc:552-616`).  Counts are `int`s in
the source. -/
structure PrevOracle where
  winMatches1 : Int
  winMatches2 : Int
  outliers1 : Int
  projAdd15 : Int
  projMatches50 : Int
  outliers2 : Int
deriving DecidableEq, Repr

/-- `Tracking::TrackPreviousFrame` (`Tracking.cc:552-616`).  Returns the
boolean result together with the list of matcher searches performed, in
order, with the radii and octave restriction the source passes. -/
def trackPreviousFrame (kfInMap maxOctave : Nat) (o : PrevOracle) :
    Bool × List SearchCall :=
  let minOctave : Nat := if kfInMap > 5 then maxOctave / 2 + 1 else 0
  let n1 := o.winMatches1
  let step1 : Int × List SearchCall :=
    if n1 < 10 then
      let n2 := o.winMatches2
      if n2 < 10 then
        (0, [SearchCall.windowSearch 200 minOctave, SearchCall.windowSearch 100 0])
      else
        (n2, [SearchCall.windowSearch 200 minOctave, SearchCall.windowSearch 100 0])
    else (n1, [SearchCall.windowSearch 200 minOctave])
  let step2 : Int × List SearchCall :=
    if step1.1 ≥ 10 then
      (step1.1 - o.outliers1 + o.projAdd15, step1.2 ++ [SearchCall.projectionPrev 15])
    else
      (o.projMatches50, step1.2 ++ [SearchCall.projectionPrev 50])
  if step2.1 < 10 then (false, step2.2)
  else (decide (step2.1 - o.outliers2 ≥ 10), step2.2)

/-- Oracle results of the external calls made by
`Tracking::TrackWithMotionModel` (`Tracking.cc:618-653`). -/
structure MotionOracle where
  projMatches15 : Int
  outliers : Int
deriving DecidableEq, Repr

/-- `Tracking::TrackWithMotionModel` success decision (`Tracking.cc:618-653`):
`SearchByProjection(mCurrentFrame, mLastFrame, 15)`, fail below 20 matches,
then pose optimization, outlier removal, succeed at ≥ 10 surviving matches.
The predicted pose `mVelocity * mLastFrame.mTcw` is computed by the caller
(`workingStep`). -/
def trackWithMotionModel (o : MotionOracle) : Bool :=
  if o.projMatches15 < 20 then false
  else decide (o.projMatches15 - o.outliers ≥ 10)

/-- `Tracking::TrackLocalMap` success decision (`Tracking.cc:676-684`):
the inlier count is the result of the final pose optimization; require ≥ 50
inliers within `mMaxFrames` frames of a relocalization, otherwise ≥ 30. -/
def trackLocalMap (frameId lastRelocId maxFrames : Nat) (inliers : Int) :
    Bool :=
  if frameId < lastRelocId + maxFrames ∧ inliers < 50 then false
  else if inliers < 30 then false
  else true

/-- Outcome of `Tracking::NeedNewKeyFrame`: whether a keyframe is inserted
this frame and whether `InterruptBA` was signalled to LocalMapping. -/
structure KFDecision where
  insert : Bool
  interruptBA : Bool
deriving DecidableEq, Repr

/-- `Tracking::NeedNewKeyFrame` (`Tracking.cc:688-726`), with the LocalMapping
flags and the reference keyframe's tracked-landmark count as oracle inputs.
The `0.9` in the source's `mnMatchesInliers < nRefMatches*0.9` is modelled as
the rational `9/10`. -/
def needNewKeyFrame (stopped stopRequested : Bool)
    (frameId lastRelocId maxFrames minFrames kfInMap lastKFId : Nat)
    (refTracked : Nat) (idle : Bool) (inliers : Int) : KFDecision :=
  if stopped = true ∨ stopRequested = true then ⟨false, false⟩
  else if frameId < lastRelocId + maxFrames ∧ kfInMap > maxFrames then
    ⟨false, false⟩
  else
    let c1a := frameId ≥ lastKFId + maxFrames
    let c1b := frameId ≥ lastKFId + minFrames ∧ idle = true
    let c2 := (inliers : ℚ) < (refTracked : ℚ) * (9 / 10) ∧ inliers > 15
    if (c1a ∨ c1b) ∧ c2 then
      if idle = true then ⟨true, false⟩ else ⟨false, true⟩
    else ⟨false, false⟩

abbrev Pt3 := ℚ × ℚ × ℚ

/-- Depth (`z` coordinate) of a landmark in the first keyframe's camera frame.
The first keyframe's pose is the identity (`Tracking.cc:434`). -/
def depthOf (p : Pt3) : ℚ := p.2.2

/-- Modelled from the spec: `KeyFrame::ComputeSceneMedianDepth(2)`
(`KeyFrame.cc`, not under `src/`) — "rescale so the median scene depth is 1".
The landmark depths in the first keyframe's (identity) camera frame are
sorted and the element at index `(n-1)/2` is returned, as the original
ORB-SLAM routine does with `q = 2`. -/
def computeSceneMedianDepth (positions : List Pt3) : ℚ :=
  let vDepths := (positions.map depthOf).insertionSort (· ≤ ·)
  vDepths.getD ((vDepths.length - 1) / 2) 0

/-- Scale a landmark position by a factor (`pMP->SetWorldPos(...*invMedianDepth)`,
`Tracking.cc:513`). -/
def scalePoint (s : ℚ) (p : Pt3) : Pt3 := (s * p.1, s * p.2.1, s * p.2.2)

/-- Inputs of `Tracking::CreateInitialMap` produced by external collaborators:
triangulated landmark world positions and the current keyframe's translation
after global bundle adjustment, and `pKFcur->TrackedMapPoints()`. -/
structure InitMapData where
  positions : List Pt3
  tcw : Pt3
  trackedCur : Nat
deriving DecidableEq, Repr

/-- Observable outcome of `Tracking::CreateInitialMap`. -/
structure InitMapResult where
  accepted : Bool
  mapAdded : Bool
  state : TrackState
  positions : List Pt3
  tcw : Pt3
deriving DecidableEq, Repr

/-- `Tracking::CreateInitialMap` (`Tracking.cc:425-549`), from the median-depth
check on.  Rejection (`medianDepth < 0 || pKFcur->TrackedMapPoints() < 100`)
calls `Reset()` with `localMap != NULL`, which deletes the not-yet-committed
map and sets the state to `NOT_INITIALIZED`; acceptance rescales the current
keyframe translation and every landmark position by `1/medianDepth`, adds the
map to the database and moves to `WORKING`. -/
def createInitialMap (d : InitMapData) : InitMapResult :=
  let medianDepth := computeSceneMedianDepth d.positions
  let invMedianDepth := 1 / medianDepth
  if medianDepth < 0 ∨ d.trackedCur < 100 then
    { accepted := false, mapAdded := false, state := TrackState.NOT_INITIALIZED,
      positions := d.positions, tcw := d.tcw }
  else
    { accepted := true, mapAdded := true, state := TrackState.WORKING,
      positions := d.positions.map (scalePoint invMedianDepth),
      tcw := scalePoint invMedianDepth d.tcw }

/-- `Tracking::FirstInitialization` (`Tracking.cc:364-382`): in state
`NOT_INITIALIZED`, a frame with more than 100 keypoints is stored as the
reference frame and the state moves to `INITIALIZING`; otherwise nothing
changes. -/
def firstInit (v : TrackingVars) (frameId keypoints : Nat) : TrackingVars :=
  if keypoints > 100 then
    { v with initialFrameId := some frameId, mState := TrackState.INITIALIZING }
  else v

/-- Oracle results for `Tracking::Initialize`: the correspondence count from
`SearchForInitialization`, whether the two-view solver succeeded, and the
`CreateInitialMap` inputs. -/
structure InitOracle where
  iniMatches : Int
  geomOk : Bool
  initMap : InitMapData
deriving DecidableEq, Repr

/-- `Tracking::Initialize` (`Tracking.cc:384-423`): with ≤ 100 keypoints or
fewer than 100 correspondences the state falls back to `NOT_INITIALIZED`;
otherwise, if the two-view solver succeeds, `CreateInitialMap` decides the
outcome; if it fails the state is left as it was. On acceptance
`mnLastKeyFrameId` is set to the current frame id (`Tracking.cc:519`), the
relocalisation request is cleared (`Tracking.cc:499`), and the committed map
becomes current with its two keyframes (the `MapDatabase::addMap` /
`getCurrent` bookkeeping is in `MapDatabase.cc`, not under `src/`; modelled
from the spec: "designate the current Map", "1 Map with 2 KeyFrames"). -/
def initStep (v : TrackingVars) (frameId keypoints : Nat) (o : InitOracle) :
    TrackingVars × Option InitMapResult :=
  if keypoints ≤ 100 then
    ({ v with mState := TrackState.NOT_INITIALIZED }, none)
  else if o.iniMatches < 100 then
    ({ v with mState := TrackState.NOT_INITIALIZED }, none)
  else if o.geomOk = true then
    let r := createInitialMap o.initMap
    if r.accepted = true then
      ({ v with mState := r.state,
                mnLastKeyFrameId := frameId,
                mbForceRelocalisation := false,
                localMapIsNull := true,
                currentMap := some { kfCount := 2, erased := false } }, some r)
    else
      ({ v with mState := r.state, localMapIsNull := true }, some r)
  else (v, none)

/-- Oracle results of the external calls made in the `WORKING` branch of
`Tracking::GrabImage`: the two trackers' matcher/optimizer results, the
`TrackLocalMap` inlier count, the LocalMapping flags read by
`NeedNewKeyFrame`, the reference keyframe's tracked-landmark count, and the
current frame's pose after the final optimization (used by the motion-model
update at `Tracking.cc:331`). -/
structure WorkingOracle where
  prev : PrevOracle
  motion : MotionOracle
  localMapInliers : Int
  finalPose : Mat4
  lmStopped : Bool
  lmStopRequested : Bool
  lmIdle : Bool
  refTracked : Nat

/-- Result of the initial camera-pose estimation (`Tracking.cc:250-265`). -/
structure InitialTrack where
  bOK : Bool
  usedMotionModel : Bool
  motionPrediction : Option Mat4
  predictedPose : Option Mat4
  trace : List SearchCall

/-- `Tracking.cc:250-265`: use the motion model unless it is disabled, the
map has fewer than 4 keyframes, the velocity is empty, or a relocalization
happened within the last 2 frames; on motion-model failure fall back to
`TrackPreviousFrame`.  `motionPrediction` records the pose predicted by
`mVelocity * mLastFrame.mTcw` (`Tracking.cc:625`) when the motion model ran;
`predictedPose` is the frame pose prior after the chosen tracker's
initialization (`TrackPreviousFrame` copies `mLastFrame.mTcw`,
`Tracking.cc:576`). -/
def initialTracking (v : TrackingVars) (m : MapModel)
    (frameId maxOctave : Nat) (po : PrevOracle) (mo : MotionOracle) :
    InitialTrack :=
  if v.mbMotionModel = false ∨ m.kfCount < 4 ∨ v.mVelocity.isNone = true ∨
      frameId < v.mnLastRelocFrameId + 2 then
    let pr := trackPreviousFrame m.kfCount maxOctave po
    { bOK := pr.1, usedMotionModel := false, motionPrediction := none,
      predictedPose := v.lastPose, trace := pr.2 }
  else
    let tcw : Option Mat4 :=
      match v.mVelocity, v.lastPose with
      | some V, some L => some (V * L)
      | _, _ => none
    if trackWithMotionModel mo = true then
      { bOK := true, usedMotionModel := true, motionPrediction := tcw,
        predictedPose := tcw, trace := [SearchCall.projectionPrev 15] }
    else
      let pr := trackPreviousFrame m.kfCount maxOctave po
      { bOK := pr.1, usedMotionModel := true, motionPrediction := tcw,
        predictedPose := v.lastPose, trace := SearchCall.projectionPrev 15 :: pr.2 }

/-- Observable outcome of one `WORKING`-state iteration of
`Tracking::GrabImage`. -/
structure StepResult where
  vars : TrackingVars
  trackOk : Bool
  earlyReturn : Bool
  loggedError : Bool
  usedMotionModel : Bool
  motionPrediction : Option Mat4
  predictedPose : Option Mat4
  trace : List SearchCall
  insertedKeyFrame : Bool
  interruptBA : Bool
  erasedMap : Bool

/-- `Tracking.cc:274-335`: keyframe-insertion decision, success/failure state
transition, `ForceRelocalisation()` on failure (which also sets
`mnLastRelocFrameId`, `Tracking.cc:1090-1097`), the small-map `Reset()`
(which marks the current map erased only when `localMap == NULL`,
`Tracking.cc:1133-1168`), and the motion-model velocity update. -/
def afterTracking (v : TrackingVars) (m : MapModel)
    (frameId maxFrames minFrames : Nat) (bOK : Bool) (o : WorkingOracle) :
    StepResult :=
  let dec : KFDecision :=
    if bOK = true then
      needNewKeyFrame o.lmStopped o.lmStopRequested frameId
        v.mnLastRelocFrameId maxFrames minFrames m.kfCount
        v.mnLastKeyFrameId o.refTracked o.lmIdle o.localMapInliers
    else ⟨false, false⟩
  let lastKFId := if dec.insert = true then frameId else v.mnLastKeyFrameId
  let st := if bOK = true then TrackState.WORKING else TrackState.NOT_INITIALIZED
  let relocId := if bOK = true then v.mnLastRelocFrameId else frameId
  let mbForce := if bOK = true then v.mbForceRelocalisation else true
  let doReset : Bool := if st = TrackState.NOT_INITIALIZED ∧ m.kfCount ≤ 5 then true else false
  let erasedMap : Bool := doReset && v.localMapIsNull
  let localMapNull : Bool := if doReset = true then true else v.localMapIsNull
  let cur : Option MapModel :=
    if erasedMap = true then some { m with erased := true } else some m
  let vel : Option Mat4 :=
    if v.mbMotionModel = true then
      if bOK = true then
        (match v.lastPose with
          | some L => some (o.finalPose * lastTwcOf L)
          | none => none)
      else none
    else v.mVelocity
  let vars : TrackingVars := { v with
    mState := st, mVelocity := vel,
    mnLastRelocFrameId := relocId, mnLastKeyFrameId := lastKFId,
    mbForceRelocalisation := mbForce, localMapIsNull := localMapNull,
    currentMap := cur }
  { vars := vars,
    trackOk := bOK, earlyReturn := false, loggedError := false,
    usedMotionModel := false, motionPrediction := none, predictedPose := none,
    trace := [], insertedKeyFrame := dec.insert, interruptBA := dec.interruptBA,
    erasedMap := erasedMap }

/-- The `WORKING` branch of `Tracking::GrabImage` (`Tracking.cc:238-337`).
If `mapDB->getCurrent()` is `NULL` it logs an error, sets the state to
`NOT_INITIALIZED` and returns immediately (`Tracking.cc:242-248`); otherwise
it runs initial tracking, `TrackLocalMap`, and the post-tracking updates. -/
def workingStep (v : TrackingVars) (frameId maxOctave maxFrames minFrames : Nat)
    (o : WorkingOracle) : StepResult :=
  match v.currentMap with
  | none =>
      { vars := { v with mState := TrackState.NOT_INITIALIZED },
        trackOk := false, earlyReturn := true, loggedError := true,
        usedMotionModel := false, motionPrediction := none,
        predictedPose := none, trace := [], insertedKeyFrame := false,
        interruptBA := false, erasedMap := false }
  | some m =>
      let it := initialTracking v m frameId maxOctave o.prev o.motion
      let bOK := it.bOK &&
        trackLocalMap frameId v.mnLastRelocFrameId maxFrames o.localMapInliers
      let r := afterTracking v m frameId maxFrames minFrames bOK o
      { r with usedMotionModel := it.usedMotionModel,
               motionPrediction := it.motionPrediction,
               predictedPose := it.predictedPose, trace := it.trace }

/-- Outcome of one `Tracking::GrabImage` invocation.  `skipped` is the early
return in the `cv_bridge` catch block (`Tracking.cc:166-170`), carrying the
unchanged tracker state; `aborted` is a failing
`ROS_ASSERT(channels==3 || channels==1)` (`Tracking.cc:172`), which
terminates the process rather than skipping the image. -/
inductive GrabResult where
  | skipped (v : TrackingVars)
  | aborted
  | processed (v : TrackingVars)

/-- `Tracking::GrabImage` (`Tracking.cc:155-361`): bridge conversion and
channel check, the relocalization-success hand-off (`Tracking.cc:193-216`),
then the state dispatch (`Tracking.cc:223-341`).  `bridgeOk` is whether
`cv_bridge::toCvShare` succeeded; `relocSuccess` is
`mpRelocalizer->relocalizeIfSuccessfull()`. -/
def grabImage (v : TrackingVars) (bridgeOk : Bool) (channels : Nat)
    (frameId keypoints maxOctave maxFrames minFrames : Nat)
    (relocSuccess : Bool) (io : InitOracle) (wo : WorkingOracle) : GrabResult :=
  if bridgeOk = false then GrabResult.skipped v
  else if ¬(channels = 3 ∨ channels = 1) then GrabResult.aborted
  else
    let v1 :=
      if v.mbForceRelocalisation = true ∧ relocSuccess = true then
        { v with mState := TrackState.WORKING }
      else v
    let v2 :=
      if v1.mState = TrackState.NO_IMAGES_YET then
        { v1 with mState := TrackState.NOT_INITIALIZED }
      else v1
    if v2.mState = TrackState.NOT_INITIALIZED then
      GrabResult.processed (firstInit v2 frameId keypoints)
    else if v2.mState = TrackState.INITIALIZING then
      GrabResult.processed (initStep v2 frameId keypoints io).1
    else if v2.mState = TrackState.WORKING then
      GrabResult.processed (workingStep v2 frameId maxOctave maxFrames minFrames wo).vars
    else GrabResult.processed v2

/-- Environment of the candidate-selection prologue of
`Tracking::RelocalisationInline` (`Tracking.cc:911-923`): whether
`mapDB->getCurrent()` is non-`NULL`, the current map's
`DetectRelocalisationCandidates(&mCurrentFrame)` result, the last keyframe's
`GetBestCovisibilityKeyFrames(9)` and the last keyframe's id (keyframes are
identified by their ids here). -/
structure InlineRelocEnv where
  hasCurrentMap : Bool
  dbCandidates : List Nat
  lastKFCovis9 : List Nat
  lastKFId : Nat
deriving DecidableEq, Repr

/-- The candidate list actually built by `Tracking::RelocalisationInline`
(`Tracking.cc:918-923`).  In the source the `else` at line 920 has no braces,
so only `vpCandidateKFs.reserve(10)` is conditional; the assignment from
`GetBestCovisibilityKeyFrames(9)` and the `push_back` of the last keyframe
execute unconditionally and overwrite whatever the first branch assigned.
The successive `let` bindings mirror the successive assignments. -/
def relocalisationInlineCandidates (env : InlineRelocEnv) : List Nat :=
  let vpCandidateKFs : List Nat :=
    if env.hasCurrentMap = true then env.dbCandidates else []
  let vpCandidateKFs := env.lastKFCovis9
  let vpCandidateKFs := vpCandidateKFs ++ [env.lastKFId]
  vpCandidateKFs

/-- A keyframe as the shutdown exporter sees it: id, timestamp, bad flag and
the world→camera pose `(Rcw, tcw)`.  `GetRotation`, `GetCameraCenter` and
`lId` live in `KeyFrame.cc` (not under `src/`); modelled from the spec:
`GetRotation` returns the world→camera rotation, `GetCameraCenter` the
camera center in the world frame, `lId` orders keyframes by id. -/
structure KFRec where
  mnId : Nat
  mTimeStamp : ℚ
  bad : Bool
  rcw : Mat3
  tcw : Vec3

/-- Modelled from the spec: `KeyFrame::GetCameraCenter` — "Pose is
camera-center in world frame", i.e. `-Rcwᵀ · tcw`. -/
def cameraCenter (kf : KFRec) : Vec3 := -(kf.rcw.transpose * kf.tcw)

/-- A map as the shutdown exporter sees it (`getErased`, `GetAllKeyFrames`). -/
structure MapRec where
  erased : Bool
  keyFrames : List KFRec

/-- The `prec` fraction digits of `n` (most significant first). -/
def fracDigits : Nat → Nat → List Char
  | 0, _ => []
  | p + 1, n => fracDigits p (n / 10) ++ [Nat.digitChar (n % 10)]

/-- Modelled from the spec: the `std::fixed` / `setprecision` stream
formatting used at `main.cc:194,213` — decimal fixed-point with `prec`
digits after the point, rounding half away from zero. -/
def fixedFormat (prec : Nat) (x : ℚ) : String :=
  let sign := if x < 0 then "-" else ""
  let mag : ℚ := if x < 0 then -x else x
  let scaled : Nat := (Rat.floor (mag * (10 : ℚ) ^ prec + 1 / 2)).toNat
  sign ++ Nat.repr (scaled / 10 ^ prec) ++ "." ++
    String.mk (fracDigits prec (scaled % 10 ^ prec))

/-- One trajectory line (`main.cc:203-215`): `R = GetRotation().t()` is fed
to `Converter::toQuaternion` (an external conversion, abstracted as
`toQuat`), `t = GetCameraCenter()`; the timestamp is printed at precision 6
and the seven pose fields at precision 7, space separated. -/
def trajLine (toQuat : Mat3 → Fin 4 → ℚ) (kf : KFRec) : String :=
  let q := toQuat kf.rcw.transpose
  let t := cameraCenter kf
  fixedFormat 6 kf.mTimeStamp ++
    " " ++ fixedFormat 7 (t 0 0) ++ " " ++ fixedFormat 7 (t 1 0) ++
    " " ++ fixedFormat 7 (t 2 0) ++ " " ++ fixedFormat 7 (q 0) ++
    " " ++ fixedFormat 7 (q 1) ++ " " ++ fixedFormat 7 (q 2) ++
    " " ++ fixedFormat 7 (q 3)

/-- `std::sort(vpKFs.begin(), vpKFs.end(), KeyFrame::lId)` (`main.cc:188`):
sort the keyframes by ascending id. -/
def sortKFs (l : List KFRec) : List KFRec :=
  l.insertionSort (fun a b => a.mnId ≤ b.mnId)

/-- The per-map export loop (`main.cc:196-217`): one line per keyframe in
order, skipping bad keyframes (`continue`). -/
def emitLines (toQuat : Mat3 → Fin 4 → ℚ) : List KFRec → List String
  | [] => []
  | kf :: rest =>
    if kf.bad = true then emitLines toQuat rest
    else trajLine toQuat kf :: emitLines toQuat rest

/-- The shutdown export loop (`main.cc:180-220`): one file per map in
database order, skipping erased maps (`continue`); each file holds the lines
of that map's keyframes sorted by id. -/
def saveTrajectories (toQuat : Mat3 → Fin 4 → ℚ) : List MapRec → List (List String)
  | [] => []
  | mp :: rest =>
    if mp.erased = true then saveTrajectories toQuat rest
    else emitLines toQuat (sortKFs mp.keyFrames) :: saveTrajectories toQuat rest

instance : IsTotal KFRec (fun a b => a.mnId ≤ b.mnId) :=
  ⟨fun a b => Nat.le_total a.mnId b.mnId⟩

instance : IsTrans KFRec (fun a b => a.mnId ≤ b.mnId) :=
  ⟨fun _ _ _ h h2 => Nat.le_trans h h2⟩

/-- A concrete tracker state used to evaluate the embedding at specific
inputs. -/
def sampleVars : TrackingVars :=
  { mState := TrackState.WORKING, mbMotionModel := true, mVelocity := some 1,
    mnLastRelocFrameId := 0, mnLastKeyFrameId := 0,
    mbForceRelocalisation := false, localMapIsNull := true,
    currentMap := some { kfCount := 5, erased := false },
    lastPose := some 1, initialFrameId := none }

/-- Concrete initialization-oracle values for evaluation. -/
def sampleInitOracle : InitOracle :=
  { iniMatches := 0, geomOk := false,
    initMap := { positions := [], tcw := (0, 0, 0), trackedCur := 0 } }

/-- Concrete working-oracle values for evaluation. -/
def sampleWorkingOracle : WorkingOracle :=
  { prev := { winMatches1 := 0, winMatches2 := 0, outliers1 := 0,
              projAdd15 := 0, projMatches50 := 0, outliers2 := 0 },
    motion := { projMatches15 := 0, outliers := 0 },
    localMapInliers := 0, finalPose := 1, lmStopped := false,
    lmStopRequested := false, lmIdle := true, refTracked := 0 }

/-- Previous-frame oracle where both window searches and the final
projection search return 5 matches. -/
def prevOracleAllLow : PrevOracle :=
  { winMatches1 := 5, winMatches2 := 5, outliers1 := 0, projAdd15 := 0,
    projMatches50 := 5, outliers2 := 0 }

/-- Previous-frame oracle where both window searches return 5 matches but
the final projection search returns 30. -/
def prevOracleProjRescue : PrevOracle :=
  { winMatches1 := 5, winMatches2 := 5, outliers1 := 0, projAdd15 := 0,
    projMatches50 := 30, outliers2 := 0 }

/-- A tracker state in `WORKING` whose current map pointer is `NULL`. -/
def sampleVarsNoMap : TrackingVars :=
  { sampleVars with currentMap := none }

/-- Concrete `CreateInitialMap` data: three landmarks at depths 2, 1, 3, a
unit translation, 150 tracked landmarks. -/
def sampleInitMapData : InitMapData :=
  { positions := [(0, 0, 2), (0, 0, 1), (0, 0, 3)], tcw := (1, 2, 3),
    trackedCur := 150 }

/-- A tracker state in `INITIALIZING`. -/
def sampleInitVars : TrackingVars :=
  { sampleVars with mState := TrackState.INITIALIZING }

/-- A tracker state in `NOT_INITIALIZED`. -/
def sampleNotInitVars : TrackingVars :=
  { sampleVars with mState := TrackState.NOT_INITIALIZED }

/-- An initialization oracle with plenty of keypoint correspondences whose
two-view geometry succeeds but whose initial map is rejected for negative
median depth. -/
def sampleRejectInitOracle : InitOracle :=
  { iniMatches := 150, geomOk := true,
    initMap := { positions := [(0, 0, -1)], tcw := (0, 0, 0),
                 trackedCur := 150 } }

theorem lastTwcOf_mul_homog (R : Mat3) (t : Vec3) (h : R.transpose * R = 1) :
    lastTwcOf (homog R t) * homog R t = 1 := by
  unfold lastTwcOf homog rotBlock transBlock
  rw [Matrix.toBlocks_fromBlocks₁₁, Matrix.toBlocks_fromBlocks₁₂,
    Matrix.fromBlocks_multiply]
  simp [h, Matrix.fromBlocks_one]

theorem homog_mul_lastTwcOf (R : Mat3) (t : Vec3) (h : R * R.transpose = 1) :
    homog R t * lastTwcOf (homog R t) = 1 := by
  unfold lastTwcOf homog rotBlock transBlock
  rw [Matrix.toBlocks_fromBlocks₁₁, Matrix.toBlocks_fromBlocks₁₂,
    Matrix.fromBlocks_multiply]
  rw [Matrix.mul_neg, ← Matrix.mul_assoc, h, Matrix.one_mul]
  simp [Matrix.fromBlocks_one]

theorem insertionSort_map_mul_left (s : ℚ) (hs : 0 ≤ s) (l : List ℚ) :
    (l.map (fun x => s * x)).insertionSort (· ≤ ·) =
      ((l.insertionSort (· ≤ ·)).map (fun x => s * x)) := by
  have hperm : ((l.map (fun x => s * x)).insertionSort (· ≤ ·)).Perm
      ((l.insertionSort (· ≤ ·)).map (fun x => s * x)) :=
    (List.perm_insertionSort _ _).trans
      ((List.perm_insertionSort (· ≤ ·) l).symm.map _)
  exact List.eq_of_perm_of_sorted hperm (List.sorted_insertionSort _ _)
    ((List.sorted_insertionSort (· ≤ ·) l).map _
      (fun a b hab => mul_le_mul_of_nonneg_left hab hs))

theorem computeSceneMedianDepth_scale (s : ℚ) (hs : 0 ≤ s) (ps : List Pt3) :
    computeSceneMedianDepth (ps.map (scalePoint s)) =
      s * computeSceneMedianDepth ps := by
  have hmap : (ps.map (scalePoint s)).map depthOf =
      (ps.map depthOf).map (fun x => s * x) := by
    simp only [List.map_map]
    rfl
  simp only [computeSceneMedianDepth]
  rw [hmap, insertionSort_map_mul_left s hs]
  set L := (ps.map depthOf).insertionSort (· ≤ ·) with hL
  rw [List.length_map, List.getD_eq_getElem?_getD, List.getD_eq_getElem?_getD,
    List.getElem?_map]
  cases L[(L.length - 1) / 2]? with
  | none => simp
  | some a => simp

theorem emitLines_eq_filter_map (tq : Mat3 → Fin 4 → ℚ) (l : List KFRec) :
    emitLines tq l = (l.filter (fun kf => !kf.bad)).map (trajLine tq) := by
  induction l with
  | nil => rfl
  | cons kf rest ih =>
    cases hb : kf.bad <;> simp [emitLines, hb, ih]

theorem saveTrajectories_eq_filter_map (tq : Mat3 → Fin 4 → ℚ)
    (dbs : List MapRec) :
    saveTrajectories tq dbs =
      (dbs.filter (fun mp => !mp.erased)).map
        (fun mp => emitLines tq (sortKFs mp.keyFrames)) := by
  induction dbs with
  | nil => rfl
  | cons mp rest ih =>
    cases he : mp.erased <;> simp [saveTrajectories, he, ih]

theorem fracDigits_length (p : Nat) : ∀ n, (fracDigits p n).length = p := by
  induction p with
  | zero => intro n; rfl
  | succ q ih => intro n; simp [fracDigits, ih]

/-- C1: evaluating the inline-relocalization candidate selection of
`Tracking::RelocalisationInline` at a state whose current map is non-null
and whose keyframe database returns candidate `7`: the computed candidate
list is the last keyframe's top-9 covisibles plus the last keyframe
(`[3, 4]`), not the database's `[7]` — the braceless `else` at
`Tracking.cc:920` leaves the two overwriting assignments unconditional, so
the database candidates are discarded even when a current map exists. -/
theorem c1_inline_candidates_overwritten :
    relocalisationInlineCandidates
        { hasCurrentMap := true, dbCandidates := [7],
          lastKFCovis9 := [3], lastKFId := 4 } = [3, 4] ∧
      ([3, 4] : List Nat) ≠ [7] :=
  ⟨rfl, by decide⟩

/-- C2 (amended): a failing `cv_bridge` conversion makes `GrabImage` log and
return with the tracker state unchanged, but an image whose channel count is
neither 1 nor 3 trips `ROS_ASSERT` (`Tracking.cc:172`) and aborts the
process instead of being skipped. -/
theorem c2_malformed_image (v : TrackingVars) (channels : Nat)
    (frameId keypoints maxOctave maxFrames minFrames : Nat)
    (relocSuccess : Bool) (io : InitOracle) (wo : WorkingOracle) :
    (grabImage v false channels frameId keypoints maxOctave maxFrames
        minFrames relocSuccess io wo = GrabResult.skipped v) ∧
      (channels ≠ 1 → channels ≠ 3 →
        grabImage v true channels frameId keypoints maxOctave maxFrames
          minFrames relocSuccess io wo = GrabResult.aborted) := by
  constructor
  · rfl
  · intro h1 h3
    simp [grabImage, h1, h3]

/-- C2 witness: at channel count 2 the amended behaviour is observed. -/
theorem c2_malformed_image_witness :
    (2 ≠ 1 ∧ 2 ≠ 3) ∧
      grabImage sampleVars true 2 3 0 7 18 0 false sampleInitOracle
        sampleWorkingOracle = GrabResult.aborted :=
  ⟨by decide,
    (c2_malformed_image sampleVars 2 3 0 7 18 0 false sampleInitOracle
      sampleWorkingOracle).2 (by decide) (by decide)⟩

/-- C2 counterexample: at the concrete input of a 2-channel image with a
successful bridge conversion, `GrabImage` aborts on the assertion; it does
not log-and-skip with the state unchanged as the claim states. -/
theorem c2_channels_not_skipped :
    grabImage sampleVars true 2 3 0 7 18 0 false sampleInitOracle
        sampleWorkingOracle = GrabResult.aborted ∧
      GrabResult.aborted ≠ GrabResult.skipped sampleVars := by
  refine ⟨by simp [grabImage], ?_⟩
  intro h
  exact GrabResult.noConfusion h

/-- C4: a new keyframe is inserted iff LocalMapping is neither stopped nor
stop-requested, at least `mMaxFrames` frames passed since the last
relocalization or the map has at most `mMaxFrames` keyframes, at least
`mMaxFrames` frames passed since the last keyframe insertion or at least
`mMinFrames` passed with LocalMapping idle, the matched inliers are below
90% of the reference keyframe's tracked landmarks and above 15, and
LocalMapping is idle; when everything but idleness holds, `InterruptBA` is
signalled and no keyframe is inserted (insertion and interruption never
coincide). -/
theorem c4_need_new_keyframe (stopped stopRequested idle : Bool)
    (frameId lastRelocId maxFrames minFrames kfInMap lastKFId refTracked : Nat)
    (inliers : Int) :
    (((needNewKeyFrame stopped stopRequested frameId lastRelocId maxFrames
          minFrames kfInMap lastKFId refTracked idle inliers).insert = true) ↔
        (stopped = false ∧ stopRequested = false ∧
          (lastRelocId + maxFrames ≤ frameId ∨ kfInMap ≤ maxFrames) ∧
          (lastKFId + maxFrames ≤ frameId ∨
            (lastKFId + minFrames ≤ frameId ∧ idle = true)) ∧
          (inliers : ℚ) < (refTracked : ℚ) * (9 / 10) ∧ 15 < inliers ∧
          idle = true)) ∧
      (((needNewKeyFrame stopped stopRequested frameId lastRelocId maxFrames
          minFrames kfInMap lastKFId refTracked idle inliers).interruptBA = true) ↔
        (stopped = false ∧ stopRequested = false ∧
          (lastRelocId + maxFrames ≤ frameId ∨ kfInMap ≤ maxFrames) ∧
          lastKFId + maxFrames ≤ frameId ∧
          (inliers : ℚ) < (refTracked : ℚ) * (9 / 10) ∧ 15 < inliers ∧
          idle = false)) ∧
      (((needNewKeyFrame stopped stopRequested frameId lastRelocId maxFrames
          minFrames kfInMap lastKFId refTracked idle inliers).interruptBA &&
        (needNewKeyFrame stopped stopRequested frameId lastRelocId maxFrames
          minFrames kfInMap lastKFId refTracked idle inliers).insert) = false) := by
  by_cases hr : lastRelocId + maxFrames ≤ frameId
  all_goals by_cases hk : kfInMap ≤ maxFrames
  all_goals by_cases h1a : lastKFId + maxFrames ≤ frameId
  all_goals by_cases h1b : lastKFId + minFrames ≤ frameId
  all_goals by_cases hq : (inliers : ℚ) < (refTracked : ℚ) * (9 / 10)
  all_goals by_cases hi : (15 : Int) < inliers
  all_goals cases stopped
  all_goals cases stopRequested
  all_goals cases idle
  all_goals
    simp [needNewKeyFrame, hr, hk, h1a, h1b, hq, hi, Nat.not_le.mp,
      lt_iff_not_ge, Nat.lt_of_lt_of_le]

/-- C8 (amended): the first `WindowSearch` of `TrackPreviousFrame` uses a
200-pixel radius with minimum octave `maxOctave/2+1` when the current map
has more than 5 keyframes (0 otherwise); if it yields fewer than 10 matches
a second `WindowSearch` with a 100-pixel radius and no scale restriction is
tried; if that also yields fewer than 10 matches the match list is cleared
and a last-opportunity `SearchByProjection` with a 50-pixel radius is tried,
and only if that too yields fewer than 10 matches does the function declare
failure for the frame. -/
theorem c8_track_previous_frame (kfInMap maxOctave : Nat) (o : PrevOracle) :
    ((trackPreviousFrame kfInMap maxOctave o).2.head? =
        some (SearchCall.windowSearch 200
          (if kfInMap > 5 then maxOctave / 2 + 1 else 0))) ∧
      (¬ o.winMatches1 < 10 →
        (trackPreviousFrame kfInMap maxOctave o).2 =
          [SearchCall.windowSearch 200
            (if kfInMap > 5 then maxOctave / 2 + 1 else 0),
           SearchCall.projectionPrev 15]) ∧
      (o.winMatches1 < 10 → ¬ o.winMatches2 < 10 →
        (trackPreviousFrame kfInMap maxOctave o).2 =
          [SearchCall.windowSearch 200
            (if kfInMap > 5 then maxOctave / 2 + 1 else 0),
           SearchCall.windowSearch 100 0, SearchCall.projectionPrev 15]) ∧
      (o.winMatches1 < 10 → o.winMatches2 < 10 →
        ((trackPreviousFrame kfInMap maxOctave o).2 =
          [SearchCall.windowSearch 200
            (if kfInMap > 5 then maxOctave / 2 + 1 else 0),
           SearchCall.windowSearch 100 0, SearchCall.projectionPrev 50] ∧
         (o.projMatches50 < 10 →
           (trackPreviousFrame kfInMap maxOctave o).1 = false))) := by
  rcases lt_or_ge o.winMatches1 10 with h1 | h1
  all_goals rcases lt_or_ge o.winMatches2 10 with h2 | h2
  all_goals rcases lt_or_ge o.projMatches50 10 with h5 | h5
  all_goals rcases lt_or_ge (o.winMatches1 - o.outliers1 + o.projAdd15) 10 with hf1 | hf1
  all_goals rcases lt_or_ge (o.winMatches2 - o.outliers1 + o.projAdd15) 10 with hf2 | hf2
  all_goals
    simp [trackPreviousFrame, h1, h2, h5, hf1, hf2, not_lt_of_ge, not_lt]

/-- C8 witness: with 5 matches from both window searches and 5 from the
final projection search, tracking of the previous frame fails. -/
theorem c8_track_previous_frame_witness :
    ((5 : Int) < 10 ∧ (5 : Int) < 10 ∧ (5 : Int) < 10) ∧
      ((trackPreviousFrame 6 7 prevOracleAllLow).2 =
        [SearchCall.windowSearch 200 4, SearchCall.windowSearch 100 0,
         SearchCall.projectionPrev 50] ∧
       (trackPreviousFrame 6 7 prevOracleAllLow).1 = false) := by
  refine ⟨by decide, ?_⟩
  have h := (c8_track_previous_frame 6 7 prevOracleAllLow).2.2.2 (by decide) (by decide)
  exact ⟨h.1, h.2 (by decide)⟩

/-- C8 counterexample: when both window searches return fewer than 10
matches (5 each), the claim says tracking of the previous frame is declared
failed; but with the last-opportunity `SearchByProjection(...,50,...)`
(`Tracking.cc:596`) returning 30 matches the function returns `true`. -/
theorem c8_not_failed_after_two_low_window_searches :
    ((5 : Int) < 10) ∧
      (trackPreviousFrame 6 7 prevOracleProjRescue).1 = true := by
  exact ⟨by decide, rfl⟩
theorem workingStep_some (v : TrackingVars) (m : MapModel)
    (frameId maxOctave maxFrames minFrames : Nat) (o : WorkingOracle)
    (hm : v.currentMap = some m) :
    workingStep v frameId maxOctave maxFrames minFrames o =
      { afterTracking v m frameId maxFrames minFrames
          ((initialTracking v m frameId maxOctave o.prev o.motion).bOK &&
            trackLocalMap frameId v.mnLastRelocFrameId maxFrames
              o.localMapInliers) o with
        usedMotionModel :=
          (initialTracking v m frameId maxOctave o.prev o.motion).usedMotionModel,
        motionPrediction :=
          (initialTracking v m frameId maxOctave o.prev o.motion).motionPrediction,
        predictedPose :=
          (initialTracking v m frameId maxOctave o.prev o.motion).predictedPose,
        trace := (initialTracking v m frameId maxOctave o.prev o.motion).trace } := by
  simp [workingStep, hm]

theorem afterTracking_trackOk (v : TrackingVars) (m : MapModel)
    (frameId maxFrames minFrames : Nat) (b : Bool) (o : WorkingOracle) :
    (afterTracking v m frameId maxFrames minFrames b o).trackOk = b := rfl

theorem afterTracking_velocity (v : TrackingVars) (m : MapModel)
    (frameId maxFrames minFrames : Nat) (b : Bool) (o : WorkingOracle)
    (hmm : v.mbMotionModel = true) (L : Mat4) (hL : v.lastPose = some L) :
    (afterTracking v m frameId maxFrames minFrames b o).vars.mVelocity =
      (if b = true then some (o.finalPose * lastTwcOf L) else none) := by
  cases b <;> simp [afterTracking, hmm, hL]

theorem initialTracking_used_iff (v : TrackingVars) (m : MapModel)
    (frameId maxOctave : Nat) (po : PrevOracle) (mo : MotionOracle) :
    ((initialTracking v m frameId maxOctave po mo).usedMotionModel = true ↔
      (v.mbMotionModel = true ∧ 4 ≤ m.kfCount ∧ v.mVelocity.isSome = true ∧
        v.mnLastRelocFrameId + 2 ≤ frameId)) := by
  cases hmm : v.mbMotionModel
  all_goals cases hvel : v.mVelocity
  all_goals by_cases h4 : m.kfCount < 4
  all_goals by_cases h2 : frameId < v.mnLastRelocFrameId + 2
  all_goals cases htm : trackWithMotionModel mo
  all_goals simp [initialTracking, hmm, hvel, h4, h2, htm]
  all_goals omega

theorem initialTracking_motion_fields (v : TrackingVars) (m : MapModel)
    (frameId maxOctave : Nat) (po : PrevOracle) (mo : MotionOracle)
    (V L : Mat4) (hV : v.mVelocity = some V) (hL : v.lastPose = some L)
    (hused : (initialTracking v m frameId maxOctave po mo).usedMotionModel = true) :
    (initialTracking v m frameId maxOctave po mo).motionPrediction =
        some (V * L) ∧
      (initialTracking v m frameId maxOctave po mo).trace.head? =
        some (SearchCall.projectionPrev 15) := by
  by_cases hc : v.mbMotionModel = false ∨ m.kfCount < 4 ∨
      frameId < v.mnLastRelocFrameId + 2
  · exfalso
    simp [initialTracking, hV, hc] at hused
  · cases htm : trackWithMotionModel mo <;>
      simp [initialTracking, hc, htm, hV, hL]

theorem initialTracking_notused (v : TrackingVars) (m : MapModel)
    (frameId maxOctave : Nat) (po : PrevOracle) (mo : MotionOracle)
    (hused : (initialTracking v m frameId maxOctave po mo).usedMotionModel = false) :
    (initialTracking v m frameId maxOctave po mo).trace =
      (trackPreviousFrame m.kfCount maxOctave po).2 := by
  cases hvel : v.mVelocity with
  | none => simp [initialTracking, hvel]
  | some V =>
    by_cases hc : v.mbMotionModel = false ∨ m.kfCount < 4 ∨
        frameId < v.mnLastRelocFrameId + 2
    · simp [initialTracking, hvel, hc]
    · exfalso
      cases htm : trackWithMotionModel mo <;>
        simp [initialTracking, hvel, hc, htm] at hused

theorem workingStep_velocity (v : TrackingVars) (m : MapModel)
    (frameId maxOctave maxFrames minFrames : Nat) (o : WorkingOracle)
    (hm : v.currentMap = some m) (hmm : v.mbMotionModel = true)
    (L : Mat4) (hL : v.lastPose = some L) :
    (((workingStep v frameId maxOctave maxFrames minFrames o).trackOk = true →
        (workingStep v frameId maxOctave maxFrames minFrames o).vars.mVelocity =
          some (o.finalPose * lastTwcOf L)) ∧
      ((workingStep v frameId maxOctave maxFrames minFrames o).trackOk = false →
        (workingStep v frameId maxOctave maxFrames minFrames o).vars.mVelocity =
          none)) := by
  rw [workingStep_some v m frameId maxOctave maxFrames minFrames o hm]
  cases hb : (initialTracking v m frameId maxOctave o.prev o.motion).bOK &&
      trackLocalMap frameId v.mnLastRelocFrameId maxFrames o.localMapInliers
  all_goals simp [afterTracking, hmm, hL]

/-- C3: when tracking fails in the `WORKING` state, the tracker moves to
`NOT_INITIALIZED` and forces relocalization, and the current map is marked
erased exactly when it has at most 5 keyframes; in particular a map with
exactly 5 keyframes is erased. -/
theorem c3_tracking_failure (v : TrackingVars) (m : MapModel)
    (frameId maxOctave maxFrames minFrames : Nat) (o : WorkingOracle)
    (hm : v.currentMap = some m) (hnull : v.localMapIsNull = true)
    (hfail : (workingStep v frameId maxOctave maxFrames minFrames o).trackOk = false) :
    (workingStep v frameId maxOctave maxFrames minFrames o).vars.mState =
        TrackState.NOT_INITIALIZED ∧
      (workingStep v frameId maxOctave maxFrames minFrames
        o).vars.mbForceRelocalisation = true ∧
      ((workingStep v frameId maxOctave maxFrames minFrames o).erasedMap = true ↔
        m.kfCount ≤ 5) ∧
      (m.kfCount = 5 →
        (workingStep v frameId maxOctave maxFrames minFrames o).erasedMap = true) := by
  rw [workingStep_some v m frameId maxOctave maxFrames minFrames o hm] at hfail ⊢
  revert hfail
  cases hb : (initialTracking v m frameId maxOctave o.prev o.motion).bOK &&
      trackLocalMap frameId v.mnLastRelocFrameId maxFrames o.localMapInliers
  · intro _
    by_cases hk : m.kfCount ≤ 5
    · simp [afterTracking, hnull, hk]
    · constructor
      · simp [afterTracking]
      · constructor
        · simp [afterTracking]
        · constructor
          · simp [afterTracking, hnull, hk]
          · intro h5; exact absurd (h5 ▸ Nat.le_refl 5) hk
  · intro hfa
    simp [afterTracking] at hfa

/-- C10: a frame processed in state `WORKING` while `mapDB->getCurrent()` is
`NULL` makes `GrabImage` log an error, set the state to `NOT_INITIALIZED`
and return immediately: no search is performed, no keyframe is inserted, no
map is erased, and every other tracker variable is unchanged. -/
theorem c10_null_current_map (v : TrackingVars)
    (frameId maxOctave maxFrames minFrames : Nat) (o : WorkingOracle)
    (h : v.currentMap = none) :
    workingStep v frameId maxOctave maxFrames minFrames o =
      { vars := { v with mState := TrackState.NOT_INITIALIZED },
        trackOk := false,
        earlyReturn := true,
        loggedError := true,
        usedMotionModel := false,
        motionPrediction := none,
        predictedPose := none,
        trace := [],
        insertedKeyFrame := false,
        interruptBA := false,
        erasedMap := false } := by
  simp [workingStep, h]

/-- C3 witness: with a 5-keyframe current map and an oracle yielding no
matches anywhere, tracking fails and the map is erased. -/
theorem c3_tracking_failure_witness :
    (sampleVars.currentMap = some { kfCount := 5, erased := false } ∧
        sampleVars.localMapIsNull = true ∧
        (workingStep sampleVars 10 7 18 0 sampleWorkingOracle).trackOk = false) ∧
      ((workingStep sampleVars 10 7 18 0 sampleWorkingOracle).vars.mState =
          TrackState.NOT_INITIALIZED ∧
        (workingStep sampleVars 10 7 18 0
          sampleWorkingOracle).vars.mbForceRelocalisation = true ∧
        ((workingStep sampleVars 10 7 18 0 sampleWorkingOracle).erasedMap = true ↔
          (5 : Nat) ≤ 5) ∧
        ((5 : Nat) = 5 →
          (workingStep sampleVars 10 7 18 0 sampleWorkingOracle).erasedMap = true)) :=
  ⟨⟨rfl, rfl, rfl⟩,
    c3_tracking_failure sampleVars { kfCount := 5, erased := false } 10 7 18 0
      sampleWorkingOracle rfl rfl rfl⟩

/-- C10 witness: evaluation of the `NULL`-current-map guard at a concrete
state. -/
theorem c10_null_current_map_witness :
    sampleVarsNoMap.currentMap = none ∧
      workingStep sampleVarsNoMap 3 7 18 0 sampleWorkingOracle =
        { vars := { sampleVarsNoMap with mState := TrackState.NOT_INITIALIZED },
          trackOk := false,
          earlyReturn := true,
          loggedError := true,
          usedMotionModel := false,
          motionPrediction := none,
          predictedPose := none,
          trace := [],
          insertedKeyFrame := false,
          interruptBA := false,
          erasedMap := false } :=
  ⟨rfl, c10_null_current_map sampleVarsNoMap 3 7 18 0 sampleWorkingOracle rfl⟩

/-- C5: in state `WORKING` the motion model is used iff it is enabled, the
current map has at least 4 keyframes, the velocity is known, and the last
relocalization was at least 2 frames ago; when it is used the predicted pose
is `mVelocity * mLastFrame.mTcw` and the matcher search is a projection with
a 15-pixel radius; otherwise the previous frame is tracked; after the frame
the velocity becomes `Tcw * LastTwc` on success and is cleared on any
tracking failure, and `LastTwc` is the inverse of the previous homogeneous
pose whenever its rotation block is orthogonal. -/
theorem c5_motion_model (v : TrackingVars) (m : MapModel)
    (frameId maxOctave maxFrames minFrames : Nat) (o : WorkingOracle)
    (hm : v.currentMap = some m) :
    ((workingStep v frameId maxOctave maxFrames minFrames o).usedMotionModel = true ↔
        (v.mbMotionModel = true ∧ 4 ≤ m.kfCount ∧ v.mVelocity.isSome = true ∧
          v.mnLastRelocFrameId + 2 ≤ frameId)) ∧
      (∀ V L : Mat4, v.mVelocity = some V → v.lastPose = some L →
        (workingStep v frameId maxOctave maxFrames minFrames o).usedMotionModel = true →
        ((workingStep v frameId maxOctave maxFrames minFrames o).motionPrediction =
            some (V * L) ∧
          (workingStep v frameId maxOctave maxFrames minFrames o).trace.head? =
            some (SearchCall.projectionPrev 15))) ∧
      ((workingStep v frameId maxOctave maxFrames minFrames o).usedMotionModel = false →
        (workingStep v frameId maxOctave maxFrames minFrames o).trace =
          (trackPreviousFrame m.kfCount maxOctave o.prev).2) ∧
      (v.mbMotionModel = true → ∀ L : Mat4, v.lastPose = some L →
        (((workingStep v frameId maxOctave maxFrames minFrames o).trackOk = true →
            (workingStep v frameId maxOctave maxFrames minFrames o).vars.mVelocity =
              some (o.finalPose * lastTwcOf L)) ∧
          ((workingStep v frameId maxOctave maxFrames minFrames o).trackOk = false →
            (workingStep v frameId maxOctave maxFrames minFrames o).vars.mVelocity =
              none))) ∧
      (∀ (R : Mat3) (t : Vec3), R.transpose * R = 1 → R * R.transpose = 1 →
        (lastTwcOf (homog R t) * homog R t = 1 ∧
          homog R t * lastTwcOf (homog R t) = 1)) := by
  refine ⟨?_, ?_, ?_, ?_,
    fun R t h1 h2 => ⟨lastTwcOf_mul_homog R t h1, homog_mul_lastTwcOf R t h2⟩⟩
  · rw [workingStep_some v m frameId maxOctave maxFrames minFrames o hm]
    simpa using initialTracking_used_iff v m frameId maxOctave o.prev o.motion
  · intro V L hV hL hused
    rw [workingStep_some v m frameId maxOctave maxFrames minFrames o hm] at hused ⊢
    have hu : (initialTracking v m frameId maxOctave
        o.prev o.motion).usedMotionModel = true := by
      simpa using hused
    simpa using initialTracking_motion_fields v m frameId maxOctave o.prev
      o.motion V L hV hL hu
  · intro hused
    rw [workingStep_some v m frameId maxOctave maxFrames minFrames o hm] at hused ⊢
    have hu : (initialTracking v m frameId maxOctave
        o.prev o.motion).usedMotionModel = false := by
      simpa using hused
    simpa using initialTracking_notused v m frameId maxOctave o.prev o.motion hu
  · intro hmm L hL
    exact workingStep_velocity v m frameId maxOctave maxFrames minFrames o hm hmm L hL

/-- C5 witness: the motion-model dispatch condition evaluated at a concrete
`WORKING` state with a 5-keyframe map, known velocity, and a frame 10 frames
after the last relocalization. -/
theorem c5_motion_model_witness :
    sampleVars.currentMap = some { kfCount := 5, erased := false } ∧
      ((workingStep sampleVars 10 7 18 0 sampleWorkingOracle).usedMotionModel = true ↔
        (sampleVars.mbMotionModel = true ∧ (4 : Nat) ≤ 5 ∧
          sampleVars.mVelocity.isSome = true ∧
          sampleVars.mnLastRelocFrameId + 2 ≤ 10)) :=
  ⟨rfl, (c5_motion_model sampleVars { kfCount := 5, erased := false } 10 7 18 0
    sampleWorkingOracle rfl).1⟩

/-- C7: the initial map is rejected (no map committed, state not `WORKING`)
iff the median scene depth is negative or the current keyframe tracks fewer
than 100 landmarks; when accepted, the current keyframe's translation and
every landmark position are scaled by the inverse median depth, the map is
added, the state becomes `WORKING`, and (for a positive median depth) the
median scene depth of the scaled landmarks is 1. -/
theorem c7_create_initial_map (d : InitMapData) :
    (((createInitialMap d).mapAdded = false ∧
        (createInitialMap d).state ≠ TrackState.WORKING) ↔
      (computeSceneMedianDepth d.positions < 0 ∨ d.trackedCur < 100)) ∧
      (¬ (computeSceneMedianDepth d.positions < 0 ∨ d.trackedCur < 100) →
        ((createInitialMap d).mapAdded = true ∧
          (createInitialMap d).state = TrackState.WORKING ∧
          (createInitialMap d).positions =
            d.positions.map
              (scalePoint (1 / computeSceneMedianDepth d.positions)) ∧
          (createInitialMap d).tcw =
            scalePoint (1 / computeSceneMedianDepth d.positions) d.tcw ∧
          (0 < computeSceneMedianDepth d.positions →
            computeSceneMedianDepth (createInitialMap d).positions = 1))) := by
  by_cases h : computeSceneMedianDepth d.positions < 0 ∨ d.trackedCur < 100
  · simp [createInitialMap, h]
  · have hpos : (createInitialMap d).positions =
        d.positions.map (scalePoint (1 / computeSceneMedianDepth d.positions)) := by
      simp [createInitialMap, h]
    refine ⟨by simp [createInitialMap, h], fun _ => ?_⟩
    refine ⟨by simp [createInitialMap, h], by simp [createInitialMap, h],
      hpos, by simp [createInitialMap, h], ?_⟩
    intro hmd
    rw [hpos, computeSceneMedianDepth_scale _ (by positivity) _, one_div,
      inv_mul_cancel₀ (ne_of_gt hmd)]

/-- C7 witness: the accepted initial map built from `sampleInitMapData` has
median depth 2 before scaling and median depth 1 after. -/
theorem c7_create_initial_map_witness :
    (¬ (computeSceneMedianDepth sampleInitMapData.positions < 0 ∨
        sampleInitMapData.trackedCur < 100) ∧
      0 < computeSceneMedianDepth sampleInitMapData.positions) ∧
      ((createInitialMap sampleInitMapData).mapAdded = true ∧
        (createInitialMap sampleInitMapData).state = TrackState.WORKING ∧
        computeSceneMedianDepth (createInitialMap sampleInitMapData).positions = 1) := by
  have h := (c7_create_initial_map sampleInitMapData).2 (by decide)
  exact ⟨⟨by decide, by decide⟩, h.1, h.2.1, h.2.2.2.2 (by decide)⟩

/-- C6 (amended): from `NOT_INITIALIZED` the tracker moves to `INITIALIZING`
iff the frame has more than 100 keypoints (storing it as the reference
frame, and in particular a 0-keypoint frame leaves the state unchanged);
from `INITIALIZING` it falls back to `NOT_INITIALIZED` iff the frame has at
most 100 keypoints, or fewer than 100 matcher correspondences, or the
two-view geometry succeeds but the initial map is rejected (negative median
depth or fewer than 100 tracked landmarks). -/
theorem c6_initialization_gate (v w : TrackingVars)
    (frameId frameId2 keypoints keypoints2 : Nat) (o : InitOracle)
    (hv : v.mState = TrackState.NOT_INITIALIZED)
    (hw : w.mState = TrackState.INITIALIZING) :
    (((firstInit v frameId keypoints).mState = TrackState.INITIALIZING ↔
        100 < keypoints) ∧
      (100 < keypoints →
        (firstInit v frameId keypoints).initialFrameId = some frameId) ∧
      (¬ 100 < keypoints → firstInit v frameId keypoints = v)) ∧
      ((initStep w frameId2 keypoints2 o).1.mState = TrackState.NOT_INITIALIZED ↔
        (keypoints2 ≤ 100 ∨ o.iniMatches < 100 ∨
          (o.geomOk = true ∧
            (computeSceneMedianDepth o.initMap.positions < 0 ∨
              o.initMap.trackedCur < 100)))) := by
  constructor
  · by_cases hk : 100 < keypoints
    · simp [firstInit, hk]
    · simp [firstInit, hk, hv]
  · by_cases hk2 : keypoints2 ≤ 100
    · simp [initStep, hk2]
    · by_cases hmt : o.iniMatches < 100
      · simp [initStep, hk2, hmt]
      · cases hg : o.geomOk
        · simp [initStep, hk2, hmt, hg, hw]
        · by_cases hrej : computeSceneMedianDepth o.initMap.positions < 0 ∨
              o.initMap.trackedCur < 100
          · simp [initStep, createInitialMap, hk2, hmt, hg, hrej]
          · simp [initStep, createInitialMap, hk2, hmt, hg, hrej]

/-- C6 witness: a 150-keypoint frame moves `NOT_INITIALIZED` to
`INITIALIZING`, and in `INITIALIZING` a rejected initial map (negative
median depth) falls back to `NOT_INITIALIZED`. -/
theorem c6_initialization_gate_witness :
    (sampleNotInitVars.mState = TrackState.NOT_INITIALIZED ∧
        sampleInitVars.mState = TrackState.INITIALIZING ∧ 100 < 150) ∧
      ((firstInit sampleNotInitVars 1 150).mState = TrackState.INITIALIZING ∧
        (initStep sampleInitVars 2 150 sampleRejectInitOracle).1.mState =
          TrackState.NOT_INITIALIZED) := by
  have h := c6_initialization_gate sampleNotInitVars sampleInitVars 1 2 150 150
    sampleRejectInitOracle rfl rfl
  refine ⟨⟨rfl, rfl, by decide⟩, h.1.1.mpr (by decide), h.2.mpr ?_⟩
  right; right
  exact ⟨rfl, by decide⟩

/-- C6 counterexample: at the concrete input of a 150-keypoint frame with
150 correspondences whose two-view geometry succeeds but whose initial map
has negative median depth, the state falls back to `NOT_INITIALIZED` even
though neither of the claim's two conditions (≤ 100 keypoints, < 100
correspondences) holds. -/
theorem c6_fallback_without_low_counts :
    (initStep sampleInitVars 2 150 sampleRejectInitOracle).1.mState =
        TrackState.NOT_INITIALIZED ∧
      ¬ ((150 : Nat) ≤ 100 ∨ (150 : Int) < 100) := by
  exact ⟨rfl, by decide⟩

/-- C9: the shutdown export writes, for each non-erased map in order, a file
with one line per non-bad keyframe in ascending id order; each line is the
timestamp at 6 decimal places followed by the camera center (world frame)
and the quaternion of the transposed world→camera rotation at 7 decimal
places, space separated; erased maps and bad keyframes produce no lines; and
every formatted field carries exactly `prec` fraction digits. -/
theorem c9_trajectory_export (tq : Mat3 → Fin 4 → ℚ) (dbs : List MapRec) :
    (saveTrajectories tq dbs =
        (dbs.filter (fun mp => !mp.erased)).map
          (fun mp =>
            ((sortKFs mp.keyFrames).filter (fun kf => !kf.bad)).map
              (trajLine tq))) ∧
      (∀ mp : MapRec, List.Sorted (fun a b : KFRec => a.mnId ≤ b.mnId)
        ((sortKFs mp.keyFrames).filter (fun kf => !kf.bad))) ∧
      (∀ kf : KFRec, trajLine tq kf =
        fixedFormat 6 kf.mTimeStamp ++ " " ++
          fixedFormat 7 (cameraCenter kf 0 0) ++ " " ++
          fixedFormat 7 (cameraCenter kf 1 0) ++ " " ++
          fixedFormat 7 (cameraCenter kf 2 0) ++ " " ++
          fixedFormat 7 (tq kf.rcw.transpose 0) ++ " " ++
          fixedFormat 7 (tq kf.rcw.transpose 1) ++ " " ++
          fixedFormat 7 (tq kf.rcw.transpose 2) ++ " " ++
          fixedFormat 7 (tq kf.rcw.transpose 3)) ∧
      (∀ (prec : Nat) (x : ℚ), ∃ ip fp : Nat,
        fixedFormat prec x =
            (if x < 0 then "-" else "") ++ Nat.repr ip ++ "." ++
              String.mk (fracDigits prec fp) ∧
          (fracDigits prec fp).length = prec) := by
  have hemit : ∀ mp : MapRec, emitLines tq (sortKFs mp.keyFrames) =
      ((sortKFs mp.keyFrames).filter (fun kf => !kf.bad)).map (trajLine tq) :=
    fun mp => emitLines_eq_filter_map tq (sortKFs mp.keyFrames)
  refine ⟨?_, ?_, fun kf => rfl, ?_⟩
  · rw [saveTrajectories_eq_filter_map]
    simp only [hemit]
  · intro mp
    exact (List.sorted_insertionSort _ mp.keyFrames).filter _
  · intro prec x
    exact ⟨_, _, rfl, fracDigits_length prec _⟩
